import Mathlib

/-!
Shallow embedding of the consensource state-delta subscriber core
(src/subscriber.rs, src/event_handler.rs, src/transformer.rs, src/errors.rs),
together with theorems checking the natural-language specification against it.

Conventions of the embedding:
* byte frames are modelled after protobuf decoding: a frame is a `List Event`,
  a state-delta event's `data` field is the decoded `StateChangeList`;
* Rust `i64` is modelled as `Int`, `u64` as `Nat` with the `as i64` cast made
  explicit; `String` is `String`;
* a function that can panic in Rust returns `Option` (`none` = panic);
  a function returning `Result<_, SubscriberError>` returns `Except String _`
  (only the `EventParseError` payload string is kept);
* the addressing helpers `get_family_namespace_prefix` and `get_address_type`
  live in the `common` crate, outside this repository's sources; they are pure
  functions, so the embedding takes the namespace string `ns` and the
  classifier `classify` as parameters.
-/

/-- Modelled from the spec: `MAX_BLOCK_NUM` is imported from the `database`
crate (not part of this repository's sources); per the spec's glossary it is
the "maximum representable block number" used as `end_block_num` for records
not yet superseded, i.e. the largest `i64`. -/
def MAX_BLOCK_NUM : Int := 2 ^ 63 - 1

/-- Rust `u64 as i64`: wraps around `2^64`. -/
def u64AsI64 (n : Nat) : Int :=
  if n < 2 ^ 63 then (n : Int) else (n : Int) - 2 ^ 64

/-- Rust `str::parse::<i64>`: optional sign followed by one or more ASCII
digits, and the value must fit in `i64`. -/
def parseI64 (s : String) : Option Int :=
  let core : List Char → Option Int := fun ds =>
    if ds = [] then none
    else if ds.all Char.isDigit then
      some ((ds.foldl (fun acc d => acc * 10 + (d.toNat - 48)) 0 : Nat) : Int)
    else none
  match s.data with
  | [] => none
  | c :: rest =>
    let signed : Option Int :=
      if c = '-' then (core rest).map (fun v => -v)
      else if c = '+' then core rest
      else core (c :: rest)
    match signed with
    | none => none
    | some v => if -(2 ^ 63) ≤ v ∧ v ≤ 2 ^ 63 - 1 then some v else none

/-- `sawtooth_sdk::messages::events::Event_Attribute`. -/
structure Event_Attribute where
  key : String
  value : String
deriving DecidableEq, Repr

/-- `database::models::Block`. -/
structure Block where
  block_num : Int
  block_id : String
deriving DecidableEq, Repr

/-- `common::addressing::AddressSpace`. -/
inductive AddressSpace where
  | Organization
  | Agent
  | Certificate
  | Request
  | Standard
  | AnotherFamily
deriving DecidableEq, Repr

/- ----------------------------------------------------------------
   src/subscriber.rs
   ---------------------------------------------------------------- -/

/-- `subscriber.rs`: `const NULL_BLOCK_ID: &str = "0000000000000000"`. -/
def NULL_BLOCK_ID : String := "0000000000000000"

/-- `subscriber.rs`: `const KNOWN_COUNT: usize = 10`. -/
def KNOWN_COUNT : Nat := 10

/-- `Subscriber::get_last_known_block_ids`, branch for branch:
`known[start_index..]` is `drop`, `known[start_index..start_index+10]` is
`drop` then `take`. -/
def get_last_known_block_ids (known_block_ids : List String)
    (start_index : Nat) : List String :=
  if start_index ≥ known_block_ids.length then
    [NULL_BLOCK_ID]
  else if start_index + KNOWN_COUNT ≥ known_block_ids.length then
    (known_block_ids.drop start_index)
  else
    (known_block_ids.drop start_index).take KNOWN_COUNT

/-- `ClientEventsSubscribeResponse_Status`, restricted to the cases
`Subscriber::start` distinguishes. -/
inductive SubscribeStatus where
  | OK
  | UNKNOWN_BLOCK
  | OTHER
deriving DecidableEq, Repr

/-- The sequence of subscribe attempts made by `Subscriber::start`, recorded
as the request-building inputs (known-id list, start index) of each attempt.
The validator's responses are supplied as an oracle list, one per attempt;
an exhausted oracle means the attempt got no usable response and no further
attempt is made.  Mirrors the recursion
`self.start(known_block_ids, start_index + KNOWN_COUNT)` taken exactly on
`UNKNOWN_BLOCK`. -/
def startAttempts : List SubscribeStatus → List String → Nat →
    List (List String × Nat)
  | [], known, i => [(known, i)]
  | s :: rest, known, i =>
    match s with
    | .UNKNOWN_BLOCK => (known, i) :: startAttempts rest known (i + KNOWN_COUNT)
    | _ => [(known, i)]

/-- Number of leading `UNKNOWN_BLOCK` responses in the oracle. -/
def leadingUnknowns : List SubscribeStatus → Nat
  | .UNKNOWN_BLOCK :: rest => leadingUnknowns rest + 1
  | _ => 0

/- ----------------------------------------------------------------
   Concrete frames and classifiers used to evaluate the theorems
   ---------------------------------------------------------------- -/

/-- A classifier marking every address as outside the five recognized
entity kinds. -/
def anotherFamilyClassify : String → AddressSpace :=
  fun _ => AddressSpace.AnotherFamily

/- ----------------------------------------------------------------
   Domain messages (common::proto) and database models, as used by
   src/event_handler.rs
   ---------------------------------------------------------------- -/

/-- `common::proto::organization::Organization_Type`. -/
inductive Organization_Type where
  | CERTIFYING_BODY
  | STANDARDS_BODY
  | FACTORY
  | UNSET_TYPE
deriving DecidableEq, Repr

/-- `database::custom_types::OrganizationTypeEnum`. -/
inductive OrganizationTypeEnum where
  | CertifyingBody
  | StandardsBody
  | Factory
  | UnsetType
deriving DecidableEq, Repr

/-- `common::proto::organization::Organization_Authorization_Role`. -/
inductive Organization_Authorization_Role where
  | ADMIN
  | TRANSACTOR
  | UNSET_ROLE
deriving DecidableEq, Repr

/-- `database::custom_types::RoleEnum`. -/
inductive RoleEnum where
  | Admin
  | Transactor
  | UnsetRole
deriving DecidableEq, Repr

/-- `common::proto::request::Request_Status`. -/
inductive Request_Status where
  | OPEN
  | IN_PROGRESS
  | CLOSED
  | CERTIFIED
  | UNSET_STATUS
deriving DecidableEq, Repr

/-- `database::custom_types::RequestStatusEnum`. -/
inductive RequestStatusEnum where
  | Open
  | InProgress
  | Closed
  | Certified
  | UnsetStatus
deriving DecidableEq, Repr

/-- `organization::Organization_Contact`. -/
structure Organization_Contact where
  name : String
  phone_number : String
  language_code : String
deriving DecidableEq, Repr

/-- `organization::Organization_Authorization`. -/
structure Organization_Authorization where
  public_key : String
  role : Organization_Authorization_Role
deriving DecidableEq, Repr

/-- `organization::CertifyingBody_Accreditation` (`valid_from`/`valid_to`
are `u64` on the wire). -/
structure CertifyingBody_Accreditation where
  standard_id : String
  standard_version : String
  accreditor_id : String
  valid_from : Nat
  valid_to : Nat
deriving DecidableEq, Repr

/-- `organization::CertifyingBody` message field; the rust-protobuf getter
`get_certifying_body_details` returns the default (empty) message when the
field is unset, so the embedding keeps a plain struct with default `[]`. -/
structure CertifyingBody where
  accreditations : List CertifyingBody_Accreditation
deriving DecidableEq, Repr

/-- `organization::Factory_Address`; all fields are strings on the wire. -/
structure Factory_Address where
  street_line_1 : String
  street_line_2 : String
  city : String
  state_province : String
  country : String
  postal_code : String
deriving DecidableEq, Repr

/-- `organization::Factory`; its `address` message field is optional
(`SingularPtrField`), and `event_handler.rs` reads it as an `Option`. -/
structure Factory where
  address : Option Factory_Address
deriving DecidableEq, Repr

/-- `organization::Organization`. -/
structure Organization where
  id : String
  name : String
  organization_type : Organization_Type
  certifying_body_details : CertifyingBody
  factory_details : Factory
  authorizations : List Organization_Authorization
  contacts : List Organization_Contact
deriving DecidableEq, Repr

/-- `agent::Agent` (`timestamp` is `u64` on the wire). -/
structure Agent where
  public_key : String
  organization_id : String
  name : String
  timestamp : Nat
deriving DecidableEq, Repr

/-- `certificate::Certificate`. -/
structure Certificate where
  id : String
  certifying_body_id : String
  factory_id : String
  standard_id : String
  standard_version : String
  valid_from : Nat
  valid_to : Nat
deriving DecidableEq, Repr

/-- `request::Request`. -/
structure Request where
  id : String
  factory_id : String
  standard_id : String
  status : Request_Status
  request_date : Nat
deriving DecidableEq, Repr

/-- `standard::Standard_StandardVersion`. -/
structure Standard_StandardVersion where
  version : String
  link : String
  description : String
  approval_date : Nat
deriving DecidableEq, Repr

/-- `standard::Standard`. -/
structure Standard where
  id : String
  organization_id : String
  name : String
  versions : List Standard_StandardVersion
deriving DecidableEq, Repr

/-- `database::models::NewOrganization`. -/
structure NewOrganization where
  organization_id : String
  name : String
  organization_type : OrganizationTypeEnum
  start_block_num : Int
  end_block_num : Int
deriving DecidableEq, Repr

/-- `database::models::NewAccreditation`. -/
structure NewAccreditation where
  organization_id : String
  standard_id : String
  standard_version : String
  accreditor_id : String
  valid_from : Int
  valid_to : Int
  start_block_num : Int
  end_block_num : Int
deriving DecidableEq, Repr

/-- `database::models::NewAuthorization`. -/
structure NewAuthorization where
  organization_id : String
  public_key : String
  role : RoleEnum
  start_block_num : Int
  end_block_num : Int
deriving DecidableEq, Repr

/-- `database::models::NewContact`. -/
structure NewContact where
  organization_id : String
  name : String
  phone_number : String
  language_code : String
  start_block_num : Int
  end_block_num : Int
deriving DecidableEq, Repr

/-- `database::models::NewAddress`. -/
structure NewAddress where
  organization_id : String
  street_line_1 : String
  street_line_2 : Option String
  city : String
  state_province : Option String
  country : String
  postal_code : Option String
  start_block_num : Int
  end_block_num : Int
deriving DecidableEq, Repr

/-- `database::models::NewAgent`. -/
structure NewAgent where
  public_key : String
  organization_id : Option String
  name : String
  timestamp : Int
  start_block_num : Int
  end_block_num : Int
deriving DecidableEq, Repr

/-- `database::models::NewCertificate`. -/
structure NewCertificate where
  certificate_id : String
  certifying_body_id : String
  factory_id : String
  standard_id : String
  standard_version : String
  valid_from : Int
  valid_to : Int
  start_block_num : Int
  end_block_num : Int
deriving DecidableEq, Repr

/-- `database::models::NewRequest`. -/
structure NewRequest where
  request_id : String
  factory_id : String
  standard_id : String
  status : RequestStatusEnum
  request_date : Int
  start_block_num : Int
  end_block_num : Int
deriving DecidableEq, Repr

/-- `database::models::NewStandard`. -/
structure NewStandard where
  standard_id : String
  organization_id : String
  name : String
  start_block_num : Int
  end_block_num : Int
deriving DecidableEq, Repr

/-- `database::models::NewStandardVersion`. -/
structure NewStandardVersion where
  standard_id : String
  version : String
  link : String
  description : String
  approval_date : Int
  start_block_num : Int
  end_block_num : Int
deriving DecidableEq, Repr

/- ----------------------------------------------------------------
   src/event_handler.rs — FromStateAtBlock impls and src/transformer.rs
   ---------------------------------------------------------------- -/

/-- The tuple produced by the `FromStateAtBlock<organization::Organization>`
impl — `(NewOrganization, Option<Vec<NewAccreditation>>, Option<NewAddress>,
Vec<NewAuthorization>, Vec<NewContact>)` — rendered as a structure whose
fields are named after the source's let-bindings. -/
structure OrgModels where
  new_org : NewOrganization
  new_accreditations : Option (List NewAccreditation)
  new_address : Option NewAddress
  new_auths : List NewAuthorization
  new_contacts : List NewContact
deriving DecidableEq, Repr

/-- Builds the `NewAddress` record of the Factory branch of
`FromStateAtBlock<organization::Organization>::at_block`, with the
empty-string-to-absent conversions. -/
def mkNewAddress (org_id : String) (block_num : Int)
    (address : Factory_Address) : NewAddress :=
  { organization_id := org_id
    street_line_1 := address.street_line_1
    street_line_2 :=
      match address.street_line_2 with
      | "" => none
      | s => some s
    city := address.city
    state_province :=
      match address.state_province with
      | "" => none
      | s => some s
    country := address.country
    postal_code :=
      match address.postal_code with
      | "" => none
      | s => some s
    start_block_num := block_num
    end_block_num := MAX_BLOCK_NUM }

/-- `FromStateAtBlock<organization::Organization>::at_block`.  The Factory
branch calls `.unwrap()` on the optional address, which panics when the
factory details carry no address; a panic is `none`. -/
def orgAtBlock (block_num : Int) (org : Organization) : Option OrgModels :=
  let new_org : NewOrganization :=
    { organization_id := org.id
      name := org.name
      organization_type :=
        match org.organization_type with
        | .CERTIFYING_BODY => .CertifyingBody
        | .STANDARDS_BODY => .StandardsBody
        | .FACTORY => .Factory
        | .UNSET_TYPE => .UnsetType
      start_block_num := block_num
      end_block_num := MAX_BLOCK_NUM }
  let new_accreditations : Option (List NewAccreditation) :=
    match org.organization_type with
    | .CERTIFYING_BODY =>
      some (org.certifying_body_details.accreditations.map
        (fun accreditation =>
          { organization_id := org.id
            standard_id := accreditation.standard_id
            standard_version := accreditation.standard_version
            accreditor_id := accreditation.accreditor_id
            valid_from := u64AsI64 accreditation.valid_from
            valid_to := u64AsI64 accreditation.valid_to
            start_block_num := block_num
            end_block_num := MAX_BLOCK_NUM }))
    | _ => none
  let new_auths : List NewAuthorization :=
    org.authorizations.map (fun auth =>
      { organization_id := org.id
        public_key := auth.public_key
        role :=
          match auth.role with
          | .ADMIN => .Admin
          | .TRANSACTOR => .Transactor
          | .UNSET_ROLE => .UnsetRole
        start_block_num := block_num
        end_block_num := MAX_BLOCK_NUM })
  let new_contacts : List NewContact :=
    org.contacts.map (fun contact =>
      { organization_id := org.id
        name := contact.name
        phone_number := contact.phone_number
        language_code := contact.language_code
        start_block_num := block_num
        end_block_num := MAX_BLOCK_NUM })
  match org.organization_type with
  | .FACTORY =>
    match org.factory_details.address with
    | none => none
    | some address =>
      some ⟨new_org, new_accreditations,
        some (mkNewAddress org.id block_num address), new_auths, new_contacts⟩
  | _ => some ⟨new_org, new_accreditations, none, new_auths, new_contacts⟩

/-- `FromStateAtBlock<agent::Agent>::at_block`. -/
def agentAtBlock (block_num : Int) (agent : Agent) : NewAgent :=
  { public_key := agent.public_key
    organization_id :=
      match agent.organization_id with
      | "" => none
      | s => some s
    name := agent.name
    timestamp := u64AsI64 agent.timestamp
    start_block_num := block_num
    end_block_num := MAX_BLOCK_NUM }

/-- `FromStateAtBlock<certificate::Certificate>::at_block`. -/
def certificateAtBlock (block_num : Int) (certificate : Certificate) :
    NewCertificate :=
  { certificate_id := certificate.id
    certifying_body_id := certificate.certifying_body_id
    factory_id := certificate.factory_id
    standard_id := certificate.standard_id
    standard_version := certificate.standard_version
    valid_from := u64AsI64 certificate.valid_from
    valid_to := u64AsI64 certificate.valid_to
    start_block_num := block_num
    end_block_num := MAX_BLOCK_NUM }

/-- `FromStateAtBlock<request::Request>::at_block`. -/
def requestAtBlock (block_num : Int) (request : Request) : NewRequest :=
  { request_id := request.id
    factory_id := request.factory_id
    standard_id := request.standard_id
    status :=
      match request.status with
      | .OPEN => .Open
      | .IN_PROGRESS => .InProgress
      | .CLOSED => .Closed
      | .CERTIFIED => .Certified
      | .UNSET_STATUS => .UnsetStatus
    request_date := u64AsI64 request.request_date
    start_block_num := block_num
    end_block_num := MAX_BLOCK_NUM }

/-- `FromStateAtBlock<standard::Standard>::at_block`. -/
def standardAtBlock (block_num : Int) (standard : Standard) :
    NewStandard × List NewStandardVersion :=
  ({ standard_id := standard.id
     organization_id := standard.organization_id
     name := standard.name
     start_block_num := block_num
     end_block_num := MAX_BLOCK_NUM },
   standard.versions.map (fun version =>
     { standard_id := standard.id
       version := version.version
       link := version.link
       description := version.description
       approval_date := u64AsI64 version.approval_date
       start_block_num := block_num
       end_block_num := MAX_BLOCK_NUM }))

/-- `transformer.rs` `Container::to_models`: element-wise `at_block` over the
container's values (a container is its decoded list of messages, through the
`containerize!` macro's `values()`). -/
def to_models {S D : Type} (atBlk : Int → S → D) (values : List S)
    (at_block_num : Int) : List D :=
  values.map (atBlk at_block_num)

/-- `to_models` for the organization kind, whose `at_block` may panic
(Factory without address): any element panic panics the whole map. -/
def orgToModels (values : List Organization) (at_block_num : Int) :
    Option (List OrgModels) :=
  values.mapM (orgAtBlock at_block_num)

/- ----------------------------------------------------------------
   src/event_handler.rs — event parsing
   ---------------------------------------------------------------- -/

/-- The decoded payload of a `StateChange` value.  `parse_operation` decodes
the raw bytes with `unpack_data::<...Container>` according to the address
type; the embedding carries the decoded container (a list of messages). -/
inductive StateValue where
  | org (entries : List Organization)
  | agent (entries : List Agent)
  | cert (entries : List Certificate)
  | req (entries : List Request)
  | std (entries : List Standard)
deriving DecidableEq, Repr

/-- `sawtooth_sdk::messages::transaction_receipt::StateChange`, with the
value bytes already decoded. -/
structure StateChange where
  address : String
  value : StateValue
deriving DecidableEq, Repr

/-- `sawtooth_sdk::messages::events::Event`; for a state-delta event `data`
is the decoded `StateChangeList`. -/
structure Event where
  event_type : String
  attributes : List Event_Attribute
  data : List StateChange
deriving DecidableEq, Repr

/-- `database::data_manager::OperationType`. -/
inductive OperationType where
  | CreateOrganization (models : List OrgModels)
  | CreateAgent (models : List NewAgent)
  | CreateCertificate (models : List NewCertificate)
  | CreateRequest (models : List NewRequest)
  | CreateStandard (models : List (NewStandard × List NewStandardVersion))
deriving DecidableEq, Repr

/-- The closure body of `EventHandler::parse_block` run on one block-commit
event: index the first `block_num` attribute (panic when absent), parse it
as `i64` (an `EventParseError` propagates before the `block_id` index is
evaluated), then index the first `block_id` attribute (panic when absent). -/
def commitToBlock (e : Event) : Option (Except String Block) :=
  match e.attributes.filter (fun a => a.key = "block_num") with
  | [] => none
  | a :: _ =>
    match parseI64 a.value with
    | none => some (Except.error "invalid digit found in string")
    | some n =>
      match e.attributes.filter (fun a => a.key = "block_id") with
      | [] => none
      | b :: _ => some (Except.ok { block_num := n, block_id := b.value })

/-- `EventHandler::parse_block`: the commit-event filter is mapped through
the closure and `.last()` takes the final `Result`, so the closure runs on
every commit event (a panic in any closure panics the call, and the last
event's `Result` discards earlier successes and errors); with no commit
event it is the `EventParseError` "Could not parse block event". -/
def parse_block (events : List Event) : Option (Except String Block) :=
  let commits := events.filter (fun e => e.event_type = "sawtooth/block-commit")
  if ∀ e ∈ commits, (commitToBlock e).isSome then
    match commits.getLast? with
    | none => some (Except.error "Could not parse block event")
    | some e => commitToBlock e
  else none

/-- `EventHandler::parse_state_delta_events`: flatten the state changes of
all state-delta events, keeping those whose address matches the compiled
regex `^ns` (`ns` is `get_family_namespace_prefix()`, a literal string, so
the match is a string-prefix test). -/
def parse_state_delta_events (ns : String) (events : List Event) :
    List StateChange :=
  (events.filter (fun e => e.event_type = "sawtooth/state-delta")).flatMap
    (fun event => event.data.filter
      (fun state_change => ns.isPrefixOf state_change.address))

/-- `EventHandler::parse_operation`, parameterized by the pure classifier
`get_address_type` of the `common` crate.  A decoded payload that does not
match the classified kind stands for a protobuf decode panic (`none`); the
`AnotherFamily` arm is the `EventParseError`. -/
def parse_operation (classify : String → AddressSpace) (state : StateChange)
    (block : Block) : Option (Except String OperationType) :=
  match classify state.address with
  | .Organization =>
    match state.value with
    | .org entries =>
      match orgToModels entries block.block_num with
      | none => none
      | some models => some (Except.ok (OperationType.CreateOrganization models))
    | _ => none
  | .Agent =>
    match state.value with
    | .agent entries =>
      some (Except.ok (OperationType.CreateAgent
        (to_models agentAtBlock entries block.block_num)))
    | _ => none
  | .Certificate =>
    match state.value with
    | .cert entries =>
      some (Except.ok (OperationType.CreateCertificate
        (to_models certificateAtBlock entries block.block_num)))
    | _ => none
  | .Request =>
    match state.value with
    | .req entries =>
      some (Except.ok (OperationType.CreateRequest
        (to_models requestAtBlock entries block.block_num)))
    | _ => none
  | .Standard =>
    match state.value with
    | .std entries =>
      some (Except.ok (OperationType.CreateStandard
        (to_models standardAtBlock entries block.block_num)))
    | _ => none
  | .AnotherFamily =>
    some (Except.error
      "Address didnt match any existent state data types in the Certificate Registry Namespace.")

/-- The `for change in state_changes` loop of `EventHandler::parse_events`:
push `parse_operation(change, block)?` for each change, stopping at the
first error; a panic anywhere panics the loop. -/
def parse_ops (classify : String → AddressSpace)
    (changes : List StateChange) (block : Block) :
    Option (Except String (List OperationType)) :=
  match changes with
  | [] => some (Except.ok [])
  | change :: rest =>
    match parse_operation classify change block with
    | none => none
    | some (Except.error e) => some (Except.error e)
    | some (Except.ok op) =>
      match parse_ops classify rest block with
      | none => none
      | some (Except.error e) => some (Except.error e)
      | some (Except.ok ops) => some (Except.ok (op :: ops))

/-- `EventHandler::parse_events`: an entirely empty event list short-circuits
to the zero-value block and no operations; otherwise parse the block, filter
the state changes and convert each to an operation. -/
def parse_events (classify : String → AddressSpace) (ns : String)
    (events : List Event) :
    Option (Except String (Block × List OperationType)) :=
  if events = [] then
    some (Except.ok ({ block_num := 0, block_id := "" }, []))
  else
    match parse_block events with
    | none => none
    | some (Except.error e) => some (Except.error e)
    | some (Except.ok block) =>
      match parse_ops classify (parse_state_delta_events ns events) block with
      | none => none
      | some (Except.error e) => some (Except.error e)
      | some (Except.ok operations) => some (Except.ok (block, operations))

/-- `EventHandler::handle_events`: `ok none` models the early `Ok(())` that
skips the database call, `ok (some (block, ops))` models handing `(ops,
block)` to `DataManager::execute_operations_in_block`. -/
def handle_events (classify : String → AddressSpace) (ns : String)
    (events : List Event) :
    Option (Except String (Option (Block × List OperationType))) :=
  match parse_events classify ns events with
  | none => none
  | some (Except.error e) => some (Except.error e)
  | some (Except.ok (block, operations)) =>
    if block.block_id = "" ∧ operations = [] then
      some (Except.ok none)
    else
      some (Except.ok (some (block, operations)))

/-- C4. For every list of known block ids and every start index, the window
is the genesis sentinel when the index is past the end, and otherwise up to
10 ids starting at the index. -/
theorem C4_window_selection (known : List String) (i : Nat) :
    get_last_known_block_ids known i =
      if i ≥ known.length then [NULL_BLOCK_ID]
      else (known.drop i).take 10 := by
  unfold get_last_known_block_ids KNOWN_COUNT
  by_cases h1 : i ≥ known.length
  · simp [h1]
  · simp only [h1, if_false]
    by_cases h2 : i + 10 ≥ known.length
    · simp only [ge_iff_le, h2, if_pos]
      rw [List.take_of_length_le]
      rw [List.length_drop]
      omega
    · simp [h2]

/-- A frame holding one event that is neither a block-commit nor a
state-delta event. -/
def c3Frame : List Event := [Event.mk "ping" [] []]

/-- A frame with two block-commit events carrying distinct blocks. -/
def c6Frame : List Event :=
  [Event.mk "sawtooth/block-commit"
    [Event_Attribute.mk "block_num" "1", Event_Attribute.mk "block_id" "A"] [],
   Event.mk "sawtooth/block-commit"
    [Event_Attribute.mk "block_num" "2", Event_Attribute.mk "block_id" "B"] []]

/-- A frame with one state-delta event and no block-commit event. -/
def c7Frame : List Event := [Event.mk "sawtooth/state-delta" [] []]

/-- A frame whose last block-commit event has a non-numeric block number and
whose first block-commit event has no attributes at all. -/
def c8Frame : List Event :=
  [Event.mk "sawtooth/block-commit" [] [],
   Event.mk "sawtooth/block-commit"
    [Event_Attribute.mk "block_num" "x", Event_Attribute.mk "block_id" "y"] []]

/-- A frame with a single well-attributed block-commit event whose block
number is non-numeric. -/
def c8GoodFrame : List Event :=
  [Event.mk "sawtooth/block-commit"
    [Event_Attribute.mk "block_num" "x", Event_Attribute.mk "block_id" "y"] []]

/-- A frame with a single block-commit event carrying a non-numeric
`block_num` attribute and no `block_id` attribute. -/
def c10Frame : List Event :=
  [Event.mk "sawtooth/block-commit" [Event_Attribute.mk "block_num" "x"] []]

/-- A frame with a single block-commit event with no attributes. -/
def c10PanicFrame : List Event :=
  [Event.mk "sawtooth/block-commit" [] []]

/- ----------------------------------------------------------------
   Shared helper lemmas
   ---------------------------------------------------------------- -/

/-- An element returned by `getLast?` is a member of the list. -/
theorem getLast?_eq_some_mem {α : Type} {l : List α} {a : α}
    (h : l.getLast? = some a) : a ∈ l := by
  have h2 : a ∈ l.getLast? := Option.mem_def.mpr h
  obtain ⟨hne, rfl⟩ := List.mem_getLast?_eq_getLast h2
  exact List.getLast_mem hne

/-- With no block-commit event in the frame, `parse_block` is the
"Could not parse block event" error. -/
theorem parse_block_no_commit (events : List Event)
    (h : ∀ e ∈ events, e.event_type ≠ "sawtooth/block-commit") :
    parse_block events = some (Except.error "Could not parse block event") := by
  have hf : events.filter (fun e => e.event_type = "sawtooth/block-commit")
      = [] := by
    rw [List.filter_eq_nil_iff]
    intro e he
    simp [h e he]
  simp only [parse_block, hf]
  rfl

/-- The per-commit-event closure panics exactly when the event has no
`block_num` attribute, or its first `block_num` attribute parses as an
`i64` but the event has no `block_id` attribute. -/
theorem commitToBlock_eq_none_iff (e : Event) :
    commitToBlock e = none ↔
      e.attributes.filter (fun a => a.key = "block_num") = [] ∨
      ∃ a arest,
        e.attributes.filter (fun a => a.key = "block_num") = a :: arest ∧
        (parseI64 a.value).isSome ∧
        e.attributes.filter (fun a => a.key = "block_id") = [] := by
  cases hbn : e.attributes.filter (fun a => a.key = "block_num") with
  | nil => simp [commitToBlock, hbn]
  | cons a arest =>
    cases hpi : parseI64 a.value with
    | none => simp [commitToBlock, hbn, hpi]
    | some n =>
      cases hbi : e.attributes.filter (fun a => a.key = "block_id") with
      | nil => simp [commitToBlock, hbn, hpi, hbi]
      | cons i irest => simp [commitToBlock, hbn, hpi, hbi]

/-- `parse_block` panics exactly when some commit-event closure panics. -/
theorem parse_block_eq_none_iff (events : List Event) :
    parse_block events = none ↔
      ¬ ∀ e ∈ events.filter (fun e => e.event_type = "sawtooth/block-commit"),
        (commitToBlock e).isSome := by
  by_cases hall : ∀ e ∈ events.filter
      (fun e => e.event_type = "sawtooth/block-commit"),
      (commitToBlock e).isSome
  · simp only [parse_block]
    rw [if_pos hall]
    cases hlast : (events.filter
        (fun e => e.event_type = "sawtooth/block-commit")).getLast? with
    | none =>
      exact iff_of_false (by simp) (not_not_intro hall)
    | some e =>
      have hs : (commitToBlock e).isSome :=
        hall e (getLast?_eq_some_mem hlast)
      refine iff_of_false (fun hn => ?_) (not_not_intro hall)
      have hn2 : commitToBlock e = none := hn
      rw [hn2] at hs
      simp at hs
  · have hn : parse_block events = none := by
      simp only [parse_block]
      rw [if_neg hall]
    exact iff_of_true hn hall

/-- C1. Every versioned record produced by any kind's `at_block` function at
block number `b` carries `start_block_num = b` and
`end_block_num = MAX_BLOCK_NUM` (and, the embedding being functional, the
records reach `execute_operations_in_block` unchanged). -/
theorem C1_versioned_record_stamping :
    (∀ (b : Int) (org : Organization) (out : OrgModels),
      orgAtBlock b org = some out →
        (out.new_org.start_block_num = b ∧
          out.new_org.end_block_num = MAX_BLOCK_NUM) ∧
        (∀ l, out.new_accreditations = some l → ∀ r ∈ l,
          r.start_block_num = b ∧ r.end_block_num = MAX_BLOCK_NUM) ∧
        (∀ a, out.new_address = some a →
          a.start_block_num = b ∧ a.end_block_num = MAX_BLOCK_NUM) ∧
        (∀ r ∈ out.new_auths,
          r.start_block_num = b ∧ r.end_block_num = MAX_BLOCK_NUM) ∧
        (∀ r ∈ out.new_contacts,
          r.start_block_num = b ∧ r.end_block_num = MAX_BLOCK_NUM)) ∧
    (∀ (b : Int) (entries : List Agent),
      ∀ m ∈ to_models agentAtBlock entries b,
        m.start_block_num = b ∧ m.end_block_num = MAX_BLOCK_NUM) ∧
    (∀ (b : Int) (entries : List Certificate),
      ∀ m ∈ to_models certificateAtBlock entries b,
        m.start_block_num = b ∧ m.end_block_num = MAX_BLOCK_NUM) ∧
    (∀ (b : Int) (entries : List Request),
      ∀ m ∈ to_models requestAtBlock entries b,
        m.start_block_num = b ∧ m.end_block_num = MAX_BLOCK_NUM) ∧
    (∀ (b : Int) (entries : List Standard),
      ∀ m ∈ to_models standardAtBlock entries b,
        (m.1.start_block_num = b ∧ m.1.end_block_num = MAX_BLOCK_NUM) ∧
        ∀ v ∈ m.2,
          v.start_block_num = b ∧ v.end_block_num = MAX_BLOCK_NUM) := by
  refine ⟨?_, ?_, ?_, ?_, ?_⟩
  · intro b org out h
    cases horg : org.organization_type
    case CERTIFYING_BODY =>
      simp only [orgAtBlock, horg, Option.some.injEq] at h
      subst h
      refine ⟨⟨rfl, rfl⟩, ?_, ?_, ?_, ?_⟩
      · intro l hl
        obtain rfl := Option.some.inj hl
        intro r hr
        obtain ⟨x, -, rfl⟩ := List.mem_map.mp hr
        exact ⟨rfl, rfl⟩
      · intro a ha
        exact Option.noConfusion ha
      · intro r hr
        obtain ⟨x, -, rfl⟩ := List.mem_map.mp hr
        exact ⟨rfl, rfl⟩
      · intro r hr
        obtain ⟨x, -, rfl⟩ := List.mem_map.mp hr
        exact ⟨rfl, rfl⟩
    case STANDARDS_BODY =>
      simp only [orgAtBlock, horg, Option.some.injEq] at h
      subst h
      refine ⟨⟨rfl, rfl⟩, ?_, ?_, ?_, ?_⟩
      · intro l hl
        exact Option.noConfusion hl
      · intro a ha
        exact Option.noConfusion ha
      · intro r hr
        obtain ⟨x, -, rfl⟩ := List.mem_map.mp hr
        exact ⟨rfl, rfl⟩
      · intro r hr
        obtain ⟨x, -, rfl⟩ := List.mem_map.mp hr
        exact ⟨rfl, rfl⟩
    case UNSET_TYPE =>
      simp only [orgAtBlock, horg, Option.some.injEq] at h
      subst h
      refine ⟨⟨rfl, rfl⟩, ?_, ?_, ?_, ?_⟩
      · intro l hl
        exact Option.noConfusion hl
      · intro a ha
        exact Option.noConfusion ha
      · intro r hr
        obtain ⟨x, -, rfl⟩ := List.mem_map.mp hr
        exact ⟨rfl, rfl⟩
      · intro r hr
        obtain ⟨x, -, rfl⟩ := List.mem_map.mp hr
        exact ⟨rfl, rfl⟩
    case FACTORY =>
      cases haddr : org.factory_details.address with
      | none => simp [orgAtBlock, horg, haddr] at h
      | some address =>
        simp only [orgAtBlock, horg, haddr, Option.some.injEq] at h
        subst h
        refine ⟨⟨rfl, rfl⟩, ?_, ?_, ?_, ?_⟩
        · intro l hl
          exact Option.noConfusion hl
        · intro a ha
          obtain rfl := Option.some.inj ha
          exact ⟨rfl, rfl⟩
        · intro r hr
          obtain ⟨x, -, rfl⟩ := List.mem_map.mp hr
          exact ⟨rfl, rfl⟩
        · intro r hr
          obtain ⟨x, -, rfl⟩ := List.mem_map.mp hr
          exact ⟨rfl, rfl⟩
  · intro b entries m hm
    obtain ⟨x, -, rfl⟩ := List.mem_map.mp hm
    exact ⟨rfl, rfl⟩
  · intro b entries m hm
    obtain ⟨x, -, rfl⟩ := List.mem_map.mp hm
    exact ⟨rfl, rfl⟩
  · intro b entries m hm
    obtain ⟨x, -, rfl⟩ := List.mem_map.mp hm
    exact ⟨rfl, rfl⟩
  · intro b entries m hm
    obtain ⟨x, -, rfl⟩ := List.mem_map.mp hm
    refine ⟨⟨rfl, rfl⟩, ?_⟩
    intro v hv
    obtain ⟨y, -, rfl⟩ := List.mem_map.mp hv
    exact ⟨rfl, rfl⟩

/-- C1 witness: the stamping facts evaluated at block 3 on a concrete
certifying body and a concrete agent. -/
theorem C1_versioned_record_stamping_witness :
    ((NewOrganization.mk "o" "n" OrganizationTypeEnum.CertifyingBody 3
        MAX_BLOCK_NUM).start_block_num = 3 ∧
      (NewOrganization.mk "o" "n" OrganizationTypeEnum.CertifyingBody 3
        MAX_BLOCK_NUM).end_block_num = MAX_BLOCK_NUM) ∧
    ∀ m ∈ to_models agentAtBlock [Agent.mk "pk" "" "n" 5] 3,
      m.start_block_num = 3 ∧ m.end_block_num = MAX_BLOCK_NUM := by
  have horg := C1_versioned_record_stamping.1 3
    (Organization.mk "o" "n" Organization_Type.CERTIFYING_BODY ⟨[]⟩ ⟨none⟩
      [] [])
    (OrgModels.mk
      (NewOrganization.mk "o" "n" OrganizationTypeEnum.CertifyingBody 3
        MAX_BLOCK_NUM)
      (some []) none [] []) rfl
  exact ⟨horg.1, C1_versioned_record_stamping.2.1 3 [Agent.mk "pk" "" "n" 5]⟩

/-- C2. The organization transform: a certifying body yields one
accreditation record per embedded accreditation and no address; a factory
yields no accreditation set and the address record exactly when the factory
details carry an address; authorizations and contacts are emitted one per
input entry for every organization type. -/
theorem C2_organization_transform (b : Int) (org : Organization)
    (out : OrgModels) (h : orgAtBlock b org = some out) :
    (org.organization_type = Organization_Type.CERTIFYING_BODY →
      (∃ l, out.new_accreditations = some l ∧
        l.length = org.certifying_body_details.accreditations.length) ∧
      out.new_address = none) ∧
    (org.organization_type = Organization_Type.FACTORY →
      out.new_accreditations = none ∧
      ∀ address, org.factory_details.address = some address →
        out.new_address = some (mkNewAddress org.id b address)) ∧
    out.new_auths.length = org.authorizations.length ∧
    out.new_contacts.length = org.contacts.length := by
  cases horg : org.organization_type
  case CERTIFYING_BODY =>
    simp only [orgAtBlock, horg, Option.some.injEq] at h
    subst h
    refine ⟨fun _ => ⟨⟨_, rfl, List.length_map _ _⟩, rfl⟩,
      fun hf => Organization_Type.noConfusion hf,
      List.length_map _ _, List.length_map _ _⟩
  case STANDARDS_BODY =>
    simp only [orgAtBlock, horg, Option.some.injEq] at h
    subst h
    refine ⟨fun hc => Organization_Type.noConfusion hc,
      fun hf => Organization_Type.noConfusion hf,
      List.length_map _ _, List.length_map _ _⟩
  case UNSET_TYPE =>
    simp only [orgAtBlock, horg, Option.some.injEq] at h
    subst h
    refine ⟨fun hc => Organization_Type.noConfusion hc,
      fun hf => Organization_Type.noConfusion hf,
      List.length_map _ _, List.length_map _ _⟩
  case FACTORY =>
    cases haddr : org.factory_details.address with
    | none => simp [orgAtBlock, horg, haddr] at h
    | some address =>
      simp only [orgAtBlock, horg, haddr, Option.some.injEq] at h
      subst h
      refine ⟨fun hc => Organization_Type.noConfusion hc,
        fun _ => ⟨rfl, ?_⟩, List.length_map _ _, List.length_map _ _⟩
      intro address2 haddr2
      obtain rfl := Option.some.inj haddr2
      rfl

/-- C2 witness: the transform evaluated on a concrete certifying body with
one accreditation and on a concrete factory with an address. -/
theorem C2_organization_transform_witness :
    ((Organization.mk "cb" "n" Organization_Type.CERTIFYING_BODY
        ⟨[⟨"s", "v", "acc", 1, 2⟩]⟩ ⟨none⟩ [] []).organization_type =
          Organization_Type.CERTIFYING_BODY →
      (∃ l, (some [NewAccreditation.mk "cb" "s" "v" "acc" 1 2 7
          MAX_BLOCK_NUM] : Option (List NewAccreditation)) = some l ∧
        l.length = 1) ∧
      (none : Option NewAddress) = none) ∧
    ((Organization.mk "f" "n" Organization_Type.FACTORY ⟨[]⟩
        ⟨some ⟨"s1", "", "c", "sp", "co", "pc"⟩⟩ [] []).organization_type =
          Organization_Type.FACTORY →
      (none : Option (List NewAccreditation)) = none ∧
      ∀ address,
        (Organization.mk "f" "n" Organization_Type.FACTORY ⟨[]⟩
          ⟨some ⟨"s1", "", "c", "sp", "co", "pc"⟩⟩ [] []).factory_details.address
            = some address →
        some (mkNewAddress "f" 7 ⟨"s1", "", "c", "sp", "co", "pc"⟩) =
          some (mkNewAddress "f" 7 address)) := by
  have hcb := C2_organization_transform 7
    (Organization.mk "cb" "n" Organization_Type.CERTIFYING_BODY
      ⟨[⟨"s", "v", "acc", 1, 2⟩]⟩ ⟨none⟩ [] [])
    (OrgModels.mk
      (NewOrganization.mk "cb" "n" OrganizationTypeEnum.CertifyingBody 7
        MAX_BLOCK_NUM)
      (some [NewAccreditation.mk "cb" "s" "v" "acc" 1 2 7 MAX_BLOCK_NUM])
      none [] []) rfl
  have hf := C2_organization_transform 7
    (Organization.mk "f" "n" Organization_Type.FACTORY ⟨[]⟩
      ⟨some ⟨"s1", "", "c", "sp", "co", "pc"⟩⟩ [] [])
    (OrgModels.mk
      (NewOrganization.mk "f" "n" OrganizationTypeEnum.Factory 7
        MAX_BLOCK_NUM)
      none (some (mkNewAddress "f" 7 ⟨"s1", "", "c", "sp", "co", "pc"⟩))
      [] []) rfl
  exact ⟨hcb.1, hf.2.1⟩

/-- C5. Every `UNKNOWN_BLOCK` response triggers exactly one retry with the
same known-id list and the start index advanced by the window constant 10,
and nothing else changes in the request-building inputs: the attempt
sequence is exactly `(known, i), (known, i+10), …`, one extra attempt per
leading `UNKNOWN_BLOCK` response. -/
theorem C5_unknown_block_retry (rs : List SubscribeStatus)
    (known : List String) (i : Nat) :
    startAttempts rs known i =
      (List.range (leadingUnknowns rs + 1)).map
        (fun j => (known, i + KNOWN_COUNT * j)) := by
  induction rs generalizing i with
  | nil =>
    simp [startAttempts, leadingUnknowns, List.range_succ_eq_map]
  | cons s rest ih =>
    cases s with
    | UNKNOWN_BLOCK =>
      show (known, i) :: startAttempts rest known (i + KNOWN_COUNT) = _
      rw [ih]
      show _ = (List.range (leadingUnknowns rest + 1 + 1)).map _
      rw [List.range_succ_eq_map (leadingUnknowns rest + 1), List.map_cons,
        List.map_map]
      refine List.cons_eq_cons.mpr ⟨by simp, List.map_congr_left ?_⟩
      intro a _
      simp only [Function.comp_apply, Nat.succ_eq_add_one, Prod.mk.injEq,
        true_and]
      ring
    | OK =>
      simp [startAttempts, leadingUnknowns, List.range_succ_eq_map]
    | OTHER =>
      simp [startAttempts, leadingUnknowns, List.range_succ_eq_map]

/-- C3 counterexample: a non-empty frame with no block-commit and no
state-delta events (a single unrelated "ping" event) makes `handle_events`
return the "Could not parse block event" parse error, not success. -/
theorem C3_counterexample :
    c3Frame ≠ [] ∧
    (∀ e ∈ c3Frame, e.event_type ≠ "sawtooth/block-commit" ∧
      e.event_type ≠ "sawtooth/state-delta") ∧
    handle_events anotherFamilyClassify "ab" c3Frame =
      some (Except.error "Could not parse block event") :=
  ⟨by decide, by decide, rfl⟩

/-- C3 (amended). A byte frame decoding to an empty event list makes
`handle_events` return success without invoking
`execute_operations_in_block`; a non-empty frame with no block-commit and
no state-delta events instead returns the "Could not parse block event"
parse error. -/
theorem C3_empty_frame_noop (classify : String → AddressSpace) (ns : String)
    (events : List Event) :
    (events = [] → handle_events classify ns events = some (Except.ok none)) ∧
    (events ≠ [] →
      (∀ e ∈ events, e.event_type ≠ "sawtooth/block-commit" ∧
        e.event_type ≠ "sawtooth/state-delta") →
      handle_events classify ns events =
        some (Except.error "Could not parse block event")) := by
  constructor
  · rintro rfl
    rfl
  · intro hne hno
    have hb := parse_block_no_commit events (fun e he => (hno e he).1)
    have hpe : parse_events classify ns events =
        some (Except.error "Could not parse block event") := by
      unfold parse_events
      rw [if_neg hne, hb]
    unfold handle_events
    rw [hpe]

/-- C3 witness: the amended statement evaluated on the empty frame and on
the concrete "ping" frame. -/
theorem C3_empty_frame_noop_witness :
    handle_events anotherFamilyClassify "ab" [] = some (Except.ok none) ∧
    handle_events anotherFamilyClassify "ab" c3Frame =
      some (Except.error "Could not parse block event") :=
  ⟨(C3_empty_frame_noop anotherFamilyClassify "ab" []).1 rfl,
   (C3_empty_frame_noop anotherFamilyClassify "ab" c3Frame).2 (by decide)
     (by decide)⟩

/-- C6. Whenever `parse_block` produces a block, that block is derived from
the last block-commit event of the frame in delivery order: its
`block_num` is the parsed value of that event's first `block_num`
attribute and its `block_id` is that event's first `block_id` attribute. -/
theorem C6_last_commit_wins (events : List Event) (b : Block)
    (h : parse_block events = some (Except.ok b)) :
    ∃ e, (events.filter
        (fun e => e.event_type = "sawtooth/block-commit")).getLast? = some e ∧
      ∃ a arest,
        e.attributes.filter (fun a => a.key = "block_num") = a :: arest ∧
        parseI64 a.value = some b.block_num ∧
        ∃ i irest,
          e.attributes.filter (fun a => a.key = "block_id") = i :: irest ∧
          b.block_id = i.value := by
  simp only [parse_block] at h
  split at h
  case isTrue hall =>
    cases hlast : (events.filter
        (fun e => e.event_type = "sawtooth/block-commit")).getLast? with
    | none =>
      rw [hlast] at h
      exact absurd (Option.some.inj h) (by simp)
    | some e =>
      rw [hlast] at h
      have h2 : commitToBlock e = some (Except.ok b) := h
      refine ⟨e, rfl, ?_⟩
      cases hbn : e.attributes.filter (fun a => a.key = "block_num") with
      | nil =>
        simp [commitToBlock, hbn] at h2
      | cons a arest =>
        cases hpi : parseI64 a.value with
        | none =>
          simp [commitToBlock, hbn, hpi] at h2
        | some n =>
          cases hbi : e.attributes.filter (fun a => a.key = "block_id") with
          | nil =>
            simp [commitToBlock, hbn, hpi, hbi] at h2
          | cons i irest =>
            simp only [commitToBlock, hbn, hpi, hbi, Option.some.injEq,
              Except.ok.injEq] at h2
            obtain rfl : Block.mk n i.value = b := h2
            exact ⟨a, arest, rfl, hpi, i, irest, rfl, rfl⟩
  case isFalse =>
    exact Option.noConfusion h

/-- C6 witness: on the two-commit frame, the produced block `(2, "B")` is
the one carried by the second (last) commit event. -/
theorem C6_last_commit_wins_witness :
    ∃ e, (c6Frame.filter
        (fun e => e.event_type = "sawtooth/block-commit")).getLast? = some e ∧
      ∃ a arest,
        e.attributes.filter (fun a => a.key = "block_num") = a :: arest ∧
        parseI64 a.value = some (Block.mk 2 "B").block_num ∧
        ∃ i irest,
          e.attributes.filter (fun a => a.key = "block_id") = i :: irest ∧
          (Block.mk 2 "B").block_id = i.value :=
  C6_last_commit_wins c6Frame (Block.mk 2 "B") rfl

/-- C7. A non-empty frame with at least one state-delta event and no
block-commit event makes `parse_events` fail with the
"Could not parse block event" parse error, producing no operations. -/
theorem C7_delta_without_commit_errors (classify : String → AddressSpace)
    (ns : String) (events : List Event)
    (hdelta : ∃ e ∈ events, e.event_type = "sawtooth/state-delta")
    (hnocommit : ∀ e ∈ events, e.event_type ≠ "sawtooth/block-commit") :
    parse_events classify ns events =
      some (Except.error "Could not parse block event") := by
  obtain ⟨e0, he0, -⟩ := hdelta
  have hne : events ≠ [] := by
    rintro rfl
    exact List.not_mem_nil e0 he0
  have hb := parse_block_no_commit events hnocommit
  unfold parse_events
  rw [if_neg hne, hb]

/-- C7 witness: the delta-but-no-commit frame evaluated concretely. -/
theorem C7_delta_without_commit_errors_witness :
    parse_events anotherFamilyClassify "ab" c7Frame =
      some (Except.error "Could not parse block event") :=
  C7_delta_without_commit_errors anotherFamilyClassify "ab" c7Frame
    ⟨Event.mk "sawtooth/state-delta" [] [], by decide, rfl⟩ (by decide)

/-- C8 counterexample: in a frame whose chosen (last) commit event carries
the non-numeric `block_num` value "x", `parse_block` can still panic
rather than return an `EventParseError`, because the closure also runs on
an earlier commit event that has no attributes. -/
theorem C8_counterexample :
    (c8Frame.filter (fun e => e.event_type = "sawtooth/block-commit")).getLast?
        = some (Event.mk "sawtooth/block-commit"
          [Event_Attribute.mk "block_num" "x",
           Event_Attribute.mk "block_id" "y"] []) ∧
    parseI64 "x" = none ∧
    parse_block c8Frame = none :=
  ⟨rfl, rfl, rfl⟩

/-- C8 (amended). In a frame where every block-commit event carries at
least one `block_num` and one `block_id` attribute, if the first
`block_num` attribute of the chosen (last) commit event has a value that
is not a base-10 integer, `parse_block` returns an `EventParseError` —
no panic and no silently defaulted block number. -/
theorem C8_nonnumeric_block_num_is_parse_error (events : List Event)
    (e : Event) (a : Event_Attribute) (arest : List Event_Attribute)
    (hwf : ∀ c ∈ events.filter
        (fun e => e.event_type = "sawtooth/block-commit"),
      c.attributes.filter (fun a => a.key = "block_num") ≠ [] ∧
      c.attributes.filter (fun a => a.key = "block_id") ≠ [])
    (hlast : (events.filter
        (fun e => e.event_type = "sawtooth/block-commit")).getLast? = some e)
    (hbn : e.attributes.filter (fun a => a.key = "block_num") = a :: arest)
    (hnon : parseI64 a.value = none) :
    parse_block events =
      some (Except.error "invalid digit found in string") := by
  have hcomm : commitToBlock e =
      some (Except.error "invalid digit found in string") := by
    simp [commitToBlock, hbn, hnon]
  have hall : ∀ c ∈ events.filter
      (fun e => e.event_type = "sawtooth/block-commit"),
      (commitToBlock c).isSome := by
    intro c hc
    obtain ⟨h1, h2⟩ := hwf c hc
    cases hf1 : c.attributes.filter (fun a => a.key = "block_num") with
    | nil => exact absurd hf1 h1
    | cons a1 r1 =>
      cases hp : parseI64 a1.value with
      | none => simp [commitToBlock, hf1, hp]
      | some n =>
        cases hf2 : c.attributes.filter (fun a => a.key = "block_id") with
        | nil => exact absurd hf2 h2
        | cons i r2 => simp [commitToBlock, hf1, hp, hf2]
  simp only [parse_block]
  rw [if_pos hall, hlast]
  exact hcomm

/-- C8 witness: the amended statement on a frame with a single
well-attributed commit event whose block number is "x". -/
theorem C8_nonnumeric_block_num_is_parse_error_witness :
    parse_block c8GoodFrame =
      some (Except.error "invalid digit found in string") :=
  C8_nonnumeric_block_num_is_parse_error c8GoodFrame
    (Event.mk "sawtooth/block-commit"
      [Event_Attribute.mk "block_num" "x",
       Event_Attribute.mk "block_id" "y"] [])
    (Event_Attribute.mk "block_num" "x") [] (by decide) (by decide)
    (by decide) (by decide)

/-- C9. A state change reaches classification exactly when it comes from a
state-delta event and its address matches the namespace prefix (excluded
changes produce neither an operation nor an error, since only the filtered
list is classified); and a surviving change whose address classifies as
`AnotherFamily` makes `parse_operation` return an `EventParseError`. -/
theorem C9_namespace_filter_and_unrecognized :
    (∀ (ns : String) (events : List Event) (sc : StateChange),
      sc ∈ parse_state_delta_events ns events ↔
        ((∃ e ∈ events, e.event_type = "sawtooth/state-delta" ∧
            sc ∈ e.data) ∧
          ns.isPrefixOf sc.address = true)) ∧
    (∀ (classify : String → AddressSpace) (sc : StateChange) (b : Block),
      classify sc.address = AddressSpace.AnotherFamily →
      parse_operation classify sc b = some (Except.error
        "Address didnt match any existent state data types in the Certificate Registry Namespace.")) := by
  constructor
  · intro ns events sc
    simp only [parse_state_delta_events, List.mem_flatMap, List.mem_filter,
      decide_eq_true_eq]
    tauto
  · intro classify sc b h
    unfold parse_operation
    rw [h]

/-- C9 witness: an address classified as `AnotherFamily` yields the
namespace parse error on a concrete state change. -/
theorem C9_namespace_filter_and_unrecognized_witness :
    parse_operation anotherFamilyClassify
      (StateChange.mk "addr" (StateValue.agent [])) (Block.mk 1 "b") =
      some (Except.error
        "Address didnt match any existent state data types in the Certificate Registry Namespace.") :=
  C9_namespace_filter_and_unrecognized.2 anotherFamilyClassify
    (StateChange.mk "addr" (StateValue.agent [])) (Block.mk 1 "b") rfl

/-- C10 counterexample: a commit event carrying a non-numeric `block_num`
attribute but no `block_id` attribute does not make `parse_block` panic —
the parse error propagates before the `block_id` indexing is evaluated. -/
theorem C10_counterexample :
    (Event.mk "sawtooth/block-commit"
        [Event_Attribute.mk "block_num" "x"] []).attributes.filter
      (fun a => a.key = "block_id") = [] ∧
    parse_block c10Frame =
      some (Except.error "invalid digit found in string") :=
  ⟨rfl, rfl⟩

/-- C10 (amended). `parse_block` panics (out-of-bounds indexing) exactly
when some block-commit event of the frame has no `block_num` attribute, or
has a first `block_num` attribute that parses as an `i64` while having no
`block_id` attribute; in particular, when every commit event carries both
attributes it returns `Ok` or an `EventParseError` without panicking,
while a commit event missing `block_id` whose `block_num` does not parse
yields an error rather than a panic. -/
theorem C10_parse_block_totality (events : List Event) :
    parse_block events = none ↔
      ∃ e ∈ events.filter (fun e => e.event_type = "sawtooth/block-commit"),
        e.attributes.filter (fun a => a.key = "block_num") = [] ∨
        ∃ a arest,
          e.attributes.filter (fun a => a.key = "block_num") = a :: arest ∧
          (parseI64 a.value).isSome ∧
          e.attributes.filter (fun a => a.key = "block_id") = [] := by
  rw [parse_block_eq_none_iff]
  constructor
  · intro h
    push_neg at h
    obtain ⟨e, hmem, hns⟩ := h
    have hnone : commitToBlock e = none :=
      Option.not_isSome_iff_eq_none.mp hns
    exact ⟨e, hmem, (commitToBlock_eq_none_iff e).mp hnone⟩
  · rintro ⟨e, hmem, hcond⟩ hall
    have hs := hall e hmem
    rw [(commitToBlock_eq_none_iff e).mpr hcond] at hs
    simp at hs

/-- C10 witness: a commit event with no attributes makes `parse_block`
panic. -/
theorem C10_parse_block_totality_witness :
    parse_block c10PanicFrame = none :=
  (C10_parse_block_totality c10PanicFrame).mpr
    ⟨Event.mk "sawtooth/block-commit" [] [], by decide, Or.inl rfl⟩
